import Mathlib

/-!
Verification of the lab9 web application core (router + controllers +
in-memory store) and the lab6 binary-tree builders, as a shallow
embedding of the Python source.

The router is `src/lab9/app.py` (`AppRequestHandler.do_GET`, `_first`).
The controllers/CRUD package imported by `app.py`
(`controllers.currencycontroller`, `controllers.usercontroller`,
`controllers.databasecontroller`, `controllers.pages`) is not part of the
source tree; those operations are modelled from the specification, as
marked on each definition.
-/

set_option maxRecDepth 4000

/-- Typed application errors. `valueError` models Python `ValueError` as
raised by `int()` / `float()`; `validationError` and `notFoundError` are the
spec's error taxonomy for the controllers. `str(exc)` is `message`. -/
inductive AppError where
  | valueError (msg : String)
  | validationError (msg : String)
  | notFoundError (msg : String)
deriving DecidableEq, Repr

def AppError.message : AppError → String
  | .valueError m => m
  | .validationError m => m
  | .notFoundError m => m

/-! ### Python string / numeric primitives -/

/-- Python `str.strip()` on a character list: drop whitespace at both ends. -/
def pyStrip (cs : List Char) : List Char :=
  ((cs.dropWhile Char.isWhitespace).reverse.dropWhile Char.isWhitespace).reverse

/-- Leading sign of a numeric literal: returns (negative?, remaining chars). -/
def parseSign : List Char → Bool × List Char
  | '-' :: cs => (true, cs)
  | '+' :: cs => (false, cs)
  | cs => (false, cs)

/-- Value of a digit string, most significant first. -/
def digitsVal (cs : List Char) : Nat :=
  cs.foldl (fun a c => a * 10 + (c.toNat - 48)) 0

/-- Python `int(s)` for base-10 string literals: optional surrounding
whitespace, optional sign, then a non-empty run of digits; anything else
raises `ValueError`. -/
def pyInt (s : String) : Except AppError Int :=
  let t := pyStrip s.toList
  let (neg, ds) := parseSign t
  if ds ≠ [] ∧ ds.all Char.isDigit then
    let n : Int := (digitsVal ds : Int)
    .ok (if neg then -n else n)
  else
    .error (.valueError ("invalid literal for int() with base 10: " ++ s))

/-- Python `float(s)` for plain decimal literals (optional whitespace and
sign, digits with an optional fractional part), the forms the application
uses; the result is modelled as an exact rational. Anything else raises
`ValueError`. -/
def pyFloat (s : String) : Except AppError Rat :=
  let t := pyStrip s.toList
  let (neg, cs) := parseSign t
  let ip := cs.takeWhile Char.isDigit
  let rest := cs.dropWhile Char.isDigit
  let val? : Option Rat :=
    match rest with
    | [] => if ip ≠ [] then some ((digitsVal ip : Int) : Rat) else none
    | '.' :: frac =>
        if frac.all Char.isDigit ∧ (ip ≠ [] ∨ frac ≠ []) then
          some (((digitsVal ip : Int) : Rat) +
                ((digitsVal frac : Int) : Rat) / ((10 : Rat) ^ frac.length))
        else none
    | _ => none
  match val? with
  | some v => .ok (if neg then -v else v)
  | none => .error (.valueError ("could not convert string to float: " ++ s))

/-- Inclusive codepoint ranges of the Unicode general category Letter
(Lu, Ll, Lt, Lm, Lo), Unicode 14.0.0 — the character class Python
`str.isalpha()` tests per character. -/
def unicodeLetterRanges : List (Nat × Nat) :=
  [(65, 90), (97, 122), (170, 170), (181, 181), (186, 186), (192, 214),
   (216, 246), (248, 705), (710, 721), (736, 740), (748, 748), (750, 750),
   (880, 884), (886, 887), (890, 893), (895, 895), (902, 902), (904, 906),
   (908, 908), (910, 929), (931, 1013), (1015, 1153), (1162, 1327),
   (1329, 1366), (1369, 1369), (1376, 1416), (1488, 1514), (1519, 1522),
   (1568, 1610), (1646, 1647), (1649, 1747), (1749, 1749), (1765, 1766),
   (1774, 1775), (1786, 1788), (1791, 1791), (1808, 1808), (1810, 1839),
   (1869, 1957), (1969, 1969), (1994, 2026), (2036, 2037), (2042, 2042),
   (2048, 2069), (2074, 2074), (2084, 2084), (2088, 2088), (2112, 2136),
   (2144, 2154), (2160, 2183), (2185, 2190), (2208, 2249), (2308, 2361),
   (2365, 2365), (2384, 2384), (2392, 2401), (2417, 2432), (2437, 2444),
   (2447, 2448), (2451, 2472), (2474, 2480), (2482, 2482), (2486, 2489),
   (2493, 2493), (2510, 2510), (2524, 2525), (2527, 2529), (2544, 2545),
   (2556, 2556), (2565, 2570), (2575, 2576), (2579, 2600), (2602, 2608),
   (2610, 2611), (2613, 2614), (2616, 2617), (2649, 2652), (2654, 2654),
   (2674, 2676), (2693, 2701), (2703, 2705), (2707, 2728), (2730, 2736),
   (2738, 2739), (2741, 2745), (2749, 2749), (2768, 2768), (2784, 2785),
   (2809, 2809), (2821, 2828), (2831, 2832), (2835, 2856), (2858, 2864),
   (2866, 2867), (2869, 2873), (2877, 2877), (2908, 2909), (2911, 2913),
   (2929, 2929), (2947, 2947), (2949, 2954), (2958, 2960), (2962, 2965),
   (2969, 2970), (2972, 2972), (2974, 2975), (2979, 2980), (2984, 2986),
   (2990, 3001), (3024, 3024), (3077, 3084), (3086, 3088), (3090, 3112),
   (3114, 3129), (3133, 3133), (3160, 3162), (3165, 3165), (3168, 3169),
   (3200, 3200), (3205, 3212), (3214, 3216), (3218, 3240), (3242, 3251),
   (3253, 3257), (3261, 3261), (3293, 3294), (3296, 3297), (3313, 3314),
   (3332, 3340), (3342, 3344), (3346, 3386), (3389, 3389), (3406, 3406),
   (3412, 3414), (3423, 3425), (3450, 3455), (3461, 3478), (3482, 3505),
   (3507, 3515), (3517, 3517), (3520, 3526), (3585, 3632), (3634, 3635),
   (3648, 3654), (3713, 3714), (3716, 3716), (3718, 3722), (3724, 3747),
   (3749, 3749), (3751, 3760), (3762, 3763), (3773, 3773), (3776, 3780),
   (3782, 3782), (3804, 3807), (3840, 3840), (3904, 3911), (3913, 3948),
   (3976, 3980), (4096, 4138), (4159, 4159), (4176, 4181), (4186, 4189),
   (4193, 4193), (4197, 4198), (4206, 4208), (4213, 4225), (4238, 4238),
   (4256, 4293), (4295, 4295), (4301, 4301), (4304, 4346), (4348, 4680),
   (4682, 4685), (4688, 4694), (4696, 4696), (4698, 4701), (4704, 4744),
   (4746, 4749), (4752, 4784), (4786, 4789), (4792, 4798), (4800, 4800),
   (4802, 4805), (4808, 4822), (4824, 4880), (4882, 4885), (4888, 4954),
   (4992, 5007), (5024, 5109), (5112, 5117), (5121, 5740), (5743, 5759),
   (5761, 5786), (5792, 5866), (5873, 5880), (5888, 5905), (5919, 5937),
   (5952, 5969), (5984, 5996), (5998, 6000), (6016, 6067), (6103, 6103),
   (6108, 6108), (6176, 6264), (6272, 6276), (6279, 6312), (6314, 6314),
   (6320, 6389), (6400, 6430), (6480, 6509), (6512, 6516), (6528, 6571),
   (6576, 6601), (6656, 6678), (6688, 6740), (6823, 6823), (6917, 6963),
   (6981, 6988), (7043, 7072), (7086, 7087), (7098, 7141), (7168, 7203),
   (7245, 7247), (7258, 7293), (7296, 7304), (7312, 7354), (7357, 7359),
   (7401, 7404), (7406, 7411), (7413, 7414), (7418, 7418), (7424, 7615),
   (7680, 7957), (7960, 7965), (7968, 8005), (8008, 8013), (8016, 8023),
   (8025, 8025), (8027, 8027), (8029, 8029), (8031, 8061), (8064, 8116),
   (8118, 8124), (8126, 8126), (8130, 8132), (8134, 8140), (8144, 8147),
   (8150, 8155), (8160, 8172), (8178, 8180), (8182, 8188), (8305, 8305),
   (8319, 8319), (8336, 8348), (8450, 8450), (8455, 8455), (8458, 8467),
   (8469, 8469), (8473, 8477), (8484, 8484), (8486, 8486), (8488, 8488),
   (8490, 8493), (8495, 8505), (8508, 8511), (8517, 8521), (8526, 8526),
   (8579, 8580), (11264, 11492), (11499, 11502), (11506, 11507),
   (11520, 11557), (11559, 11559), (11565, 11565), (11568, 11623),
   (11631, 11631), (11648, 11670), (11680, 11686), (11688, 11694),
   (11696, 11702), (11704, 11710), (11712, 11718), (11720, 11726),
   (11728, 11734), (11736, 11742), (11823, 11823), (12293, 12294),
   (12337, 12341), (12347, 12348), (12353, 12438), (12445, 12447),
   (12449, 12538), (12540, 12543), (12549, 12591), (12593, 12686),
   (12704, 12735), (12784, 12799), (13312, 19903), (19968, 42124),
   (42192, 42237), (42240, 42508), (42512, 42527), (42538, 42539),
   (42560, 42606), (42623, 42653), (42656, 42725), (42775, 42783),
   (42786, 42888), (42891, 42954), (42960, 42961), (42963, 42963),
   (42965, 42969), (42994, 43009), (43011, 43013), (43015, 43018),
   (43020, 43042), (43072, 43123), (43138, 43187), (43250, 43255),
   (43259, 43259), (43261, 43262), (43274, 43301), (43312, 43334),
   (43360, 43388), (43396, 43442), (43471, 43471), (43488, 43492),
   (43494, 43503), (43514, 43518), (43520, 43560), (43584, 43586),
   (43588, 43595), (43616, 43638), (43642, 43642), (43646, 43695),
   (43697, 43697), (43701, 43702), (43705, 43709), (43712, 43712),
   (43714, 43714), (43739, 43741), (43744, 43754), (43762, 43764),
   (43777, 43782), (43785, 43790), (43793, 43798), (43808, 43814),
   (43816, 43822), (43824, 43866), (43868, 43881), (43888, 44002),
   (44032, 55203), (55216, 55238), (55243, 55291), (63744, 64109),
   (64112, 64217), (64256, 64262), (64275, 64279), (64285, 64285),
   (64287, 64296), (64298, 64310), (64312, 64316), (64318, 64318),
   (64320, 64321), (64323, 64324), (64326, 64433), (64467, 64829),
   (64848, 64911), (64914, 64967), (65008, 65019), (65136, 65140),
   (65142, 65276), (65313, 65338), (65345, 65370), (65382, 65470),
   (65474, 65479), (65482, 65487), (65490, 65495), (65498, 65500),
   (65536, 65547), (65549, 65574), (65576, 65594), (65596, 65597),
   (65599, 65613), (65616, 65629), (65664, 65786), (66176, 66204),
   (66208, 66256), (66304, 66335), (66349, 66368), (66370, 66377),
   (66384, 66421), (66432, 66461), (66464, 66499), (66504, 66511),
   (66560, 66717), (66736, 66771), (66776, 66811), (66816, 66855),
   (66864, 66915), (66928, 66938), (66940, 66954), (66956, 66962),
   (66964, 66965), (66967, 66977), (66979, 66993), (66995, 67001),
   (67003, 67004), (67072, 67382), (67392, 67413), (67424, 67431),
   (67456, 67461), (67463, 67504), (67506, 67514), (67584, 67589),
   (67592, 67592), (67594, 67637), (67639, 67640), (67644, 67644),
   (67647, 67669), (67680, 67702), (67712, 67742), (67808, 67826),
   (67828, 67829), (67840, 67861), (67872, 67897), (67968, 68023),
   (68030, 68031), (68096, 68096), (68112, 68115), (68117, 68119),
   (68121, 68149), (68192, 68220), (68224, 68252), (68288, 68295),
   (68297, 68324), (68352, 68405), (68416, 68437), (68448, 68466),
   (68480, 68497), (68608, 68680), (68736, 68786), (68800, 68850),
   (68864, 68899), (69248, 69289), (69296, 69297), (69376, 69404),
   (69415, 69415), (69424, 69445), (69488, 69505), (69552, 69572),
   (69600, 69622), (69635, 69687), (69745, 69746), (69749, 69749),
   (69763, 69807), (69840, 69864), (69891, 69926), (69956, 69956),
   (69959, 69959), (69968, 70002), (70006, 70006), (70019, 70066),
   (70081, 70084), (70106, 70106), (70108, 70108), (70144, 70161),
   (70163, 70187), (70272, 70278), (70280, 70280), (70282, 70285),
   (70287, 70301), (70303, 70312), (70320, 70366), (70405, 70412),
   (70415, 70416), (70419, 70440), (70442, 70448), (70450, 70451),
   (70453, 70457), (70461, 70461), (70480, 70480), (70493, 70497),
   (70656, 70708), (70727, 70730), (70751, 70753), (70784, 70831),
   (70852, 70853), (70855, 70855), (71040, 71086), (71128, 71131),
   (71168, 71215), (71236, 71236), (71296, 71338), (71352, 71352),
   (71424, 71450), (71488, 71494), (71680, 71723), (71840, 71903),
   (71935, 71942), (71945, 71945), (71948, 71955), (71957, 71958),
   (71960, 71983), (71999, 71999), (72001, 72001), (72096, 72103),
   (72106, 72144), (72161, 72161), (72163, 72163), (72192, 72192),
   (72203, 72242), (72250, 72250), (72272, 72272), (72284, 72329),
   (72349, 72349), (72368, 72440), (72704, 72712), (72714, 72750),
   (72768, 72768), (72818, 72847), (72960, 72966), (72968, 72969),
   (72971, 73008), (73030, 73030), (73056, 73061), (73063, 73064),
   (73066, 73097), (73112, 73112), (73440, 73458), (73648, 73648),
   (73728, 74649), (74880, 75075), (77712, 77808), (77824, 78894),
   (82944, 83526), (92160, 92728), (92736, 92766), (92784, 92862),
   (92880, 92909), (92928, 92975), (92992, 92995), (93027, 93047),
   (93053, 93071), (93760, 93823), (93952, 94026), (94032, 94032),
   (94099, 94111), (94176, 94177), (94179, 94179), (94208, 100343),
   (100352, 101589), (101632, 101640), (110576, 110579), (110581, 110587),
   (110589, 110590), (110592, 110882), (110928, 110930), (110948, 110951),
   (110960, 111355), (113664, 113770), (113776, 113788), (113792, 113800),
   (113808, 113817), (119808, 119892), (119894, 119964), (119966, 119967),
   (119970, 119970), (119973, 119974), (119977, 119980), (119982, 119993),
   (119995, 119995), (119997, 120003), (120005, 120069), (120071, 120074),
   (120077, 120084), (120086, 120092), (120094, 120121), (120123, 120126),
   (120128, 120132), (120134, 120134), (120138, 120144), (120146, 120485),
   (120488, 120512), (120514, 120538), (120540, 120570), (120572, 120596),
   (120598, 120628), (120630, 120654), (120656, 120686), (120688, 120712),
   (120714, 120744), (120746, 120770), (120772, 120779), (122624, 122654),
   (123136, 123180), (123191, 123197), (123214, 123214), (123536, 123565),
   (123584, 123627), (124896, 124902), (124904, 124907), (124909, 124910),
   (124912, 124926), (124928, 125124), (125184, 125251), (125259, 125259),
   (126464, 126467), (126469, 126495), (126497, 126498), (126500, 126500),
   (126503, 126503), (126505, 126514), (126516, 126519), (126521, 126521),
   (126523, 126523), (126530, 126530), (126535, 126535), (126537, 126537),
   (126539, 126539), (126541, 126543), (126545, 126546), (126548, 126548),
   (126551, 126551), (126553, 126553), (126555, 126555), (126557, 126557),
   (126559, 126559), (126561, 126562), (126564, 126564), (126567, 126570),
   (126572, 126578), (126580, 126583), (126585, 126588), (126590, 126590),
   (126592, 126601), (126603, 126619), (126625, 126627), (126629, 126633),
   (126635, 126651), (131072, 173791), (173824, 177976), (177984, 178205),
   (178208, 183969), (183984, 191456), (194560, 195101), (196608, 201546)]

/-- One character of Python `str.isalpha()`: a Unicode letter. -/
def pyIsAlphaChar (c : Char) : Bool :=
  unicodeLetterRanges.any (fun r => Nat.ble r.1 c.toNat && Nat.ble c.toNat r.2)

/-- Python `str.isalpha()`: non-empty and every character a Unicode letter. -/
def pyIsAlpha (s : String) : Bool :=
  !s.isEmpty && s.toList.all pyIsAlphaChar

/-! ### Query strings -/

/-- A parsed query string, as produced by `urllib.parse.parse_qs`:
a mapping from key to the list of values, in insertion order. -/
abbrev QS := List (String × List String)

/-- Python `dict.get`: the value list of the first matching key, if any. -/
def qsGet (qs : QS) (key : String) : Option (List String) :=
  (qs.find? (fun p => p.1 = key)).map (fun p => p.2)

/-- `_first` from `app.py`: first query-string value for `key`, or `None`;
an empty value list (falsy in Python) also gives `None`. -/
def first (qs : QS) (key : String) : Option String :=
  match qsGet qs key with
  | none => none
  | some [] => none
  | some (v :: _) => some v

/-- `parse_qs` with default options never yields an empty value list nor an
empty-string value; query strings reaching `do_GET` satisfy this. -/
def QSWellFormed (qs : QS) : Prop :=
  ∀ p ∈ qs, p.2 ≠ [] ∧ ∀ v ∈ p.2, v ≠ ""

/-! ### Data model (modelled from the spec: entities of section 3) -/

/-- Modelled from the spec: a Currency row — store-assigned unique integer
`id`, `num_code`, unique 3-letter `char_code`, `name`, current rate `value`
(a Python float, modelled as an exact rational), integer `nominal`. -/
structure Currency where
  id : Int
  num_code : String
  char_code : String
  name : String
  value : Rat
  nominal : Int
deriving DecidableEq, Repr

/-- Modelled from the spec: a User row — unique integer `id` plus display
attributes; read-only in the core. -/
structure User where
  id : Int
  name : String
deriving DecidableEq, Repr

/-- Modelled from the spec: the in-memory relational store — Currency rows,
User rows, Subscription edges `(user_id, currency_id)`, and the next
store-assigned id. Currency rows are kept in ascending-id order by
construction (ids are assigned from the increasing `nextId`). -/
structure Store where
  currencies : List Currency
  users : List User
  subscriptions : List (Int × Int)
  nextId : Int
deriving DecidableEq, Repr

def emptyStore : Store := ⟨[], [], [], 1⟩

def userExists (s : Store) (u : Int) : Bool :=
  s.users.any (fun x => x.id == u)

def currencyExists (s : Store) (c : Int) : Bool :=
  s.currencies.any (fun x => x.id == c)

/-- Multiplicity of the Subscription edge `(u, c)` in the store. -/
def countEdge (s : Store) (u c : Int) : Nat :=
  s.subscriptions.count (u, c)

/-- The multiset of currency character codes in the store. -/
def charCodes (s : Store) : List String :=
  s.currencies.map (fun c => c.char_code)

/-! ### Controllers (modelled from the spec: sections 4.2 and 4.3) -/

/-- Modelled from the spec: `list_currencies() -> ordered sequence of
Currency`, a snapshot ordered by primary key ascending — which is the
store's construction order. -/
def list_currencies (s : Store) : List Currency :=
  s.currencies

/-- Modelled from the spec:
`create_currency(num_code, char_code, name, value, nominal) -> Currency`,
failing with `ValidationError` if `char_code` already exists; otherwise a
single atomic insert of a new row with a store-assigned id. -/
def create_currency (s : Store) (num_code char_code name : String)
    (value : Rat) (nominal : Int) : Except AppError (Currency × Store) :=
  if s.currencies.any (fun c => c.char_code == char_code) then
    .error (.validationError ("char_code already exists: " ++ char_code))
  else
    let row : Currency := ⟨s.nextId, num_code, char_code, name, value, nominal⟩
    .ok (row, { s with currencies := s.currencies ++ [row], nextId := s.nextId + 1 })

/-- Modelled from the spec: `update_currency(char_code, value) -> updated
row count`, failing with `NotFoundError` if no row matches; otherwise sets
`value` on every row with that `char_code` (at most one by the uniqueness
invariant). -/
def update_currency (s : Store) (char_code : String) (v : Rat) :
    Except AppError (Store × Nat) :=
  if s.currencies.any (fun c => c.char_code == char_code) then
    .ok ({ s with currencies :=
             s.currencies.map (fun c =>
               if c.char_code == char_code then { c with value := v } else c) },
         (s.currencies.filter (fun c => c.char_code == char_code)).length)
  else
    .error (.notFoundError ("no currency with char_code " ++ char_code))

/-- Modelled from the spec: `delete_currency(id) -> bool`, a no-op (not an
error) if the id is absent; returns whether a row existed. -/
def delete_currency (s : Store) (cid : Int) : Store × Bool :=
  ({ s with currencies := s.currencies.filter (fun c => !(c.id == cid)) },
   s.currencies.any (fun c => c.id == cid))

/-- Modelled from the spec: `subscribe(user_id, currency_id)` — idempotent
insert of a Subscription edge; fails with `NotFoundError` if either id does
not resolve to an existing row. -/
def subscribe (s : Store) (u c : Int) : Except AppError Store :=
  if userExists s u && currencyExists s c then
    if s.subscriptions.contains (u, c) then .ok s
    else .ok { s with subscriptions := s.subscriptions ++ [(u, c)] }
  else
    .error (.notFoundError "user or currency not found")

/-- Modelled from the spec: `unsubscribe(user_id, currency_id)` — idempotent
delete of the edge; an absent edge is a no-op, but an id that does not
resolve fails with `NotFoundError` (never silently ignored). -/
def unsubscribe (s : Store) (u c : Int) : Except AppError Store :=
  if userExists s u && currencyExists s c then
    .ok { s with subscriptions :=
            s.subscriptions.filter (fun p => !(p == (u, c))) }
  else
    .error (.notFoundError "user or currency not found")

/-! ### Page rendering (external collaborator) -/

/-- Modelled from the spec: the page renderer is an external collaborator
whose internals are out of scope; each page is an abstract total function
of the store. `pages.message` / the error template are modelled as the
identity on the message text (the response body carries the message). -/
def pages_message (msg : String) : String := msg

/-- Modelled from the spec: error-template rendering, identity on the
message text. -/
def render_error (msg : String) : String := msg

/-- Modelled from the spec: index page render (out of scope). -/
def pages_index : String := "<index>"

/-- Modelled from the spec: author page render (out of scope). -/
def pages_author : String := "<author>"

/-- Modelled from the spec: users page render (out of scope). -/
def pages_users (_s : Store) : String := "<users>"

/-- Modelled from the spec: single-user page render (out of scope). -/
def pages_user (_s : Store) (_uid : Int) : String := "<user>"

/-- Modelled from the spec: currencies page render (out of scope). -/
def pages_currencies (_s : Store) : String := "<currencies>"

/-! ### Responses, effects and the dispatcher (`AppRequestHandler.do_GET`) -/

/-- An HTTP response: status, body (empty for redirects) and the
`Location` header for redirects (`_send_html`, `_send_text`, `_redirect`). -/
structure Response where
  status : Nat
  body : String
  location : Option String
deriving DecidableEq, Repr

def htmlResp (body : String) (status : Nat) : Response := ⟨status, body, none⟩

def textResp (body : String) (status : Nat) : Response := ⟨status, body, none⟩

/-- `_redirect`: HTTP 302 (`HTTPStatus.FOUND`) with a `Location` header. -/
def redirectResp (location : String) : Response := ⟨302, "", some location⟩

/-- One invocation of a mutating controller operation, recorded at the call
site in source order. -/
inductive Effect where
  | subscribeE (u c : Int)
  | unsubscribeE (u c : Int)
  | deleteE (cid : Int)
  | updateE (code : String) (v : Rat)
  | createE (num_code char_code name : String) (v : Rat) (nominal : Int)
deriving DecidableEq, Repr

/-- Outcome of the `try` block of `do_GET`: a response, or a propagating
Python exception. -/
inductive Outcome where
  | ok (r : Response)
  | exc (e : AppError)
deriving DecidableEq, Repr

/-- The `/user/subscribe` branch of `do_GET`: both parameters must be
truthy (`if not user_id_raw or not currency_id_raw`), then
`int()`-parse both and call `users.subscribe`, then redirect. -/
def subscribeRoute (s : Store) (qs : QS) : Store × Outcome × List Effect :=
  match first qs "id", first qs "currency_id" with
  | some u, some c =>
      if u = "" || c = "" then
        (s, .ok (htmlResp (pages_message "Нужны параметры id и currency_id") 400), [])
      else
        match pyInt u with
        | .error e => (s, .exc e, [])
        | .ok ui =>
            match pyInt c with
            | .error e => (s, .exc e, [])
            | .ok ci =>
                match subscribe s ui ci with
                | .error e => (s, .exc e, [.subscribeE ui ci])
                | .ok s' =>
                    (s', .ok (redirectResp ("/user?id=" ++ u)), [.subscribeE ui ci])
  | _, _ =>
      (s, .ok (htmlResp (pages_message "Нужны параметры id и currency_id") 400), [])

/-- The `/user/unsubscribe` branch of `do_GET`, symmetric to subscribe. -/
def unsubscribeRoute (s : Store) (qs : QS) : Store × Outcome × List Effect :=
  match first qs "id", first qs "currency_id" with
  | some u, some c =>
      if u = "" || c = "" then
        (s, .ok (htmlResp (pages_message "Нужны параметры id и currency_id") 400), [])
      else
        match pyInt u with
        | .error e => (s, .exc e, [])
        | .ok ui =>
            match pyInt c with
            | .error e => (s, .exc e, [])
            | .ok ci =>
                match unsubscribe s ui ci with
                | .error e => (s, .exc e, [.unsubscribeE ui ci])
                | .ok s' =>
                    (s', .ok (redirectResp ("/user?id=" ++ u)), [.unsubscribeE ui ci])
  | _, _ =>
      (s, .ok (htmlResp (pages_message "Нужны параметры id и currency_id") 400), [])

/-- The `/currency/delete` branch of `do_GET`. -/
def deleteRoute (s : Store) (qs : QS) : Store × Outcome × List Effect :=
  match first qs "id" with
  | none => (s, .ok (htmlResp (pages_message "Не передан параметр id") 400), [])
  | some raw =>
      match pyInt raw with
      | .error e => (s, .exc e, [])
      | .ok cid =>
          let s' := (delete_currency s cid).1
          (s', .ok (redirectResp "/currencies"), [.deleteE cid])

/-- The `/currency/create` branch of `do_GET`: all five parameters must be
present (`None in (...)`), then `float(value)` and `int(nominal)` are
parsed and `create_currency` is called, then redirect. -/
def createRoute (s : Store) (qs : QS) : Store × Outcome × List Effect :=
  match first qs "num_code", first qs "char_code", first qs "name",
        first qs "value", first qs "nominal" with
  | some nc, some cc, some nm, some vl, some no =>
      match pyFloat vl with
      | .error e => (s, .exc e, [])
      | .ok v =>
          match pyInt no with
          | .error e => (s, .exc e, [])
          | .ok nom =>
              match create_currency s nc cc nm v nom with
              | .error e => (s, .exc e, [.createE nc cc nm v nom])
              | .ok (_, s') =>
                  (s', .ok (redirectResp "/currencies"), [.createE nc cc nm v nom])
  | _, _, _, _, _ =>
      (s, .ok (htmlResp (pages_message "Не хватает параметров для создания валюты") 400), [])

/-- The `for key, values in qs.items()` loop of the `/currency/update`
branch: every key that is exactly 3 alphabetic characters with a non-empty
value list triggers `update_currency(key, float(values[0]))`; an exception
aborts the loop, keeping the store mutations already performed. -/
def updateLoop : Store → QS → Store × Option AppError × List Effect
  | s, [] => (s, none, [])
  | s, (k, vs) :: rest =>
      match vs with
      | [] => updateLoop s rest
      | v0 :: _ =>
          if k.length = 3 && pyIsAlpha k then
            match pyFloat v0 with
            | .error e => (s, some e, [])
            | .ok v =>
                match update_currency s k v with
                | .error e => (s, some e, [.updateE k v])
                | .ok (s', _) =>
                    let r := updateLoop s' rest
                    (r.1, r.2.1, .updateE k v :: r.2.2)
          else updateLoop s rest

/-- The body of the `try` block of `do_GET`: exact string match of the path
against the eleven routes, falling through to the 404 page; the resulting
store, the outcome (response or propagating exception) and the controller
invocations performed. -/
def dispatch (s : Store) (path : String) (qs : QS) : Store × Outcome × List Effect :=
  if path = "/" then (s, .ok (htmlResp pages_index 200), [])
  else if path = "/author" then (s, .ok (htmlResp pages_author 200), [])
  else if path = "/users" then (s, .ok (htmlResp (pages_users s) 200), [])
  else if path = "/user" then
    match first qs "id" with
    | none => (s, .ok (htmlResp (pages_message "Не передан параметр id") 400), [])
    | some raw =>
        match pyInt raw with
        | .error e => (s, .exc e, [])
        | .ok uid => (s, .ok (htmlResp (pages_user s uid) 200), [])
  else if path = "/user/subscribe" then subscribeRoute s qs
  else if path = "/user/unsubscribe" then unsubscribeRoute s qs
  else if path = "/currencies" then (s, .ok (htmlResp (pages_currencies s) 200), [])
  else if path = "/currency/delete" then deleteRoute s qs
  else if path = "/currency/update" then
    let r := updateLoop s qs
    match r.2.1 with
    | some e => (r.1, .exc e, r.2.2)
    | none => (r.1, .ok (redirectResp "/currencies"), r.2.2)
  else if path = "/currency/create" then createRoute s qs
  else if path = "/currency/show" then
    (s, .ok (textResp "OK (see server console)" 200), [])
  else
    (s, .ok (htmlResp (render_error "404: Страница не найдена") 404), [])

/-- `do_GET`: the `try` body with the outermost `except Exception` boundary
that converts any propagating exception into a 500 response carrying
`str(exc)`. The handler itself is a total function of the store and the
request, so it serves every subsequent request on the store it returns. -/
def doGet (s : Store) (path : String) (qs : QS) : Store × Response × List Effect :=
  match dispatch s path qs with
  | (s', .ok r, effs) => (s', r, effs)
  | (s', .exc e, effs) => (s', htmlResp (render_error e.message) 500, effs)

/-- The eleven exactly-matched route paths of `do_GET`, in source order. -/
def routePaths : List String :=
  ["/", "/author", "/users", "/user", "/user/subscribe", "/user/unsubscribe",
   "/currencies", "/currency/delete", "/currency/update", "/currency/create",
   "/currency/show"]

/-! ### Concrete stores used to instantiate hypotheses -/

/-- A one-user, one-currency store used to instantiate theorems. -/
def demoStore : Store :=
  { currencies := [⟨1, "840", "USD", "US Dollar", 90, 1⟩],
    users := [⟨1, "alice"⟩], subscriptions := [], nextId := 2 }

/-! ### C1 -/

/-- C1: any exception propagating out of the matched-route handling of a
GET request is caught at the outermost dispatch boundary and turned into a
500 response whose body carries the exception's message, leaving the
handler (a total function) able to serve subsequent requests on the store
it returns; in particular a non-numeric `id` on `/user` raises a
`ValueError` from `int()` that is mapped to such a 500 response with the
store unchanged. -/
theorem c1_exception_caught_as_500 :
    (∀ (s : Store) (path : String) (qs : QS) (s' : Store) (e : AppError)
       (effs : List Effect),
       dispatch s path qs = (s', .exc e, effs) →
       doGet s path qs = (s', htmlResp (render_error e.message) 500, effs))
    ∧ (∀ (s : Store) (raw : String) (e : AppError),
       pyInt raw = .error e →
       doGet s "/user" [("id", [raw])] =
         (s, htmlResp (render_error e.message) 500, [])) := by
  constructor
  · intro s path qs s' e effs h
    simp [doGet, h]
  · intro s raw e h
    simp [doGet, dispatch, first, qsGet, List.find?, h]

/-- Witness for C1 at a concrete non-numeric request. -/
theorem c1_witness :
    doGet emptyStore "/user" [("id", ["abc"])] =
      (emptyStore,
       htmlResp (render_error (AppError.valueError
         "invalid literal for int() with base 10: abc").message) 500, []) :=
  c1_exception_caught_as_500.2 emptyStore "abc"
    (AppError.valueError "invalid literal for int() with base 10: abc") rfl

/-! ### C2 -/

/-- C2: on every parameterised route, a missing required query parameter is
answered with a 400 response and a descriptive message, and no controller
operation is invoked (the effect trace is empty): `/user` requires `id`;
`/user/subscribe` and `/user/unsubscribe` require `id` and `currency_id`;
`/currency/delete` requires `id`; `/currency/create` requires `num_code`,
`char_code`, `name`, `value` and `nominal`. -/
theorem c2_missing_param_400 :
    (∀ (s : Store) (qs : QS), first qs "id" = none →
       doGet s "/user" qs =
         (s, htmlResp (pages_message "Не передан параметр id") 400, []))
    ∧ (∀ (s : Store) (qs : QS),
       first qs "id" = none ∨ first qs "currency_id" = none →
       doGet s "/user/subscribe" qs =
         (s, htmlResp (pages_message "Нужны параметры id и currency_id") 400, []))
    ∧ (∀ (s : Store) (qs : QS),
       first qs "id" = none ∨ first qs "currency_id" = none →
       doGet s "/user/unsubscribe" qs =
         (s, htmlResp (pages_message "Нужны параметры id и currency_id") 400, []))
    ∧ (∀ (s : Store) (qs : QS), first qs "id" = none →
       doGet s "/currency/delete" qs =
         (s, htmlResp (pages_message "Не передан параметр id") 400, []))
    ∧ (∀ (s : Store) (qs : QS),
       first qs "num_code" = none ∨ first qs "char_code" = none ∨
       first qs "name" = none ∨ first qs "value" = none ∨
       first qs "nominal" = none →
       doGet s "/currency/create" qs =
         (s, htmlResp (pages_message "Не хватает параметров для создания валюты") 400, [])) := by
  refine ⟨?_, ?_, ?_, ?_, ?_⟩
  · intro s qs h
    simp [doGet, dispatch, h]
  · intro s qs h
    rcases h with h | h <;>
      · simp only [doGet, dispatch, subscribeRoute, h]
        rcases hc : first qs "currency_id" with _ | c <;>
          rcases hi : first qs "id" with _ | u <;> simp_all
  · intro s qs h
    rcases h with h | h <;>
      · simp only [doGet, dispatch, unsubscribeRoute, h]
        rcases hc : first qs "currency_id" with _ | c <;>
          rcases hi : first qs "id" with _ | u <;> simp_all
  · intro s qs h
    simp [doGet, dispatch, deleteRoute, h]
  · intro s qs h
    simp only [doGet, dispatch, createRoute]
    rcases h1 : first qs "num_code" with _ | a <;>
      rcases h2 : first qs "char_code" with _ | b <;>
        rcases h3 : first qs "name" with _ | c <;>
          rcases h4 : first qs "value" with _ | d <;>
            rcases h5 : first qs "nominal" with _ | e <;> simp_all

/-- Witness for C2: `/user` with an empty query string. -/
theorem c2_witness :
    doGet emptyStore "/user" [] =
      (emptyStore, htmlResp (pages_message "Не передан параметр id") 400, []) :=
  c2_missing_param_400.1 emptyStore [] rfl

/-! ### C5 -/

/-- C5: route matching is exact string comparison against the eleven
defined paths, and every GET request whose path matches none of them is
answered with the 404 error page, with no controller invocation and the
store unchanged. -/
theorem c5_unmatched_path_404 :
    ∀ (path : String), path ∉ routePaths →
    ∀ (s : Store) (qs : QS),
      doGet s path qs =
        (s, htmlResp (render_error "404: Страница не найдена") 404, []) := by
  intro path hmem s qs
  simp only [routePaths, List.mem_cons, List.not_mem_nil, or_false, not_or] at hmem
  obtain ⟨h1, h2, h3, h4, h5, h6, h7, h8, h9, h10, h11⟩ := hmem
  simp [doGet, dispatch, h1, h2, h3, h4, h5, h6, h7, h8, h9, h10, h11]

/-- Witness for C5 at the spec's scenario path `/nonexistent`. -/
theorem c5_witness :
    doGet emptyStore "/nonexistent" [] =
      (emptyStore, htmlResp (render_error "404: Страница не найдена") 404, []) :=
  c5_unmatched_path_404 "/nonexistent" (by decide) emptyStore []

/-! ### C6 -/

/-- C6 counterexample: with both `id` and `currency_id` present but `id`
non-numeric, the router invokes `subscribe` zero times (not exactly once):
`int()` raises first and the request ends in a 500, so the claim as stated
fails. -/
theorem c6_counterexample :
    first [("id", ["abc"]), ("currency_id", ["1"])] "id" = some "abc" ∧
    first [("id", ["abc"]), ("currency_id", ["1"])] "currency_id" = some "1" ∧
    (doGet emptyStore "/user/subscribe"
        [("id", ["abc"]), ("currency_id", ["1"])]).2.2 = [] ∧
    (doGet emptyStore "/user/subscribe"
        [("id", ["abc"]), ("currency_id", ["1"])]).2.1.status = 500 :=
  ⟨rfl, rfl, rfl, rfl⟩

/-- C6 (amended): for `/user/subscribe` (respectively `/user/unsubscribe`)
with `id` and `currency_id` present, non-empty and parsing as integers, the
router invokes `subscribe` (respectively `unsubscribe`) exactly once with
those integers, and when the controller call returns without raising it
responds HTTP 302 with Location `/user?id=<id>` built from the raw `id`
value; when the call raises, the single invocation still happened. -/
theorem c6_subscribe_unsubscribe_routes :
    (∀ (s : Store) (qs : QS) (u c : String) (ui ci : Int) (s' : Store),
       first qs "id" = some u → first qs "currency_id" = some c →
       u ≠ "" → c ≠ "" → pyInt u = .ok ui → pyInt c = .ok ci →
       subscribe s ui ci = .ok s' →
       doGet s "/user/subscribe" qs =
         (s', redirectResp ("/user?id=" ++ u), [.subscribeE ui ci]))
    ∧ (∀ (s : Store) (qs : QS) (u c : String) (ui ci : Int) (e : AppError),
       first qs "id" = some u → first qs "currency_id" = some c →
       u ≠ "" → c ≠ "" → pyInt u = .ok ui → pyInt c = .ok ci →
       subscribe s ui ci = .error e →
       doGet s "/user/subscribe" qs =
         (s, htmlResp (render_error e.message) 500, [.subscribeE ui ci]))
    ∧ (∀ (s : Store) (qs : QS) (u c : String) (ui ci : Int) (s' : Store),
       first qs "id" = some u → first qs "currency_id" = some c →
       u ≠ "" → c ≠ "" → pyInt u = .ok ui → pyInt c = .ok ci →
       unsubscribe s ui ci = .ok s' →
       doGet s "/user/unsubscribe" qs =
         (s', redirectResp ("/user?id=" ++ u), [.unsubscribeE ui ci]))
    ∧ (∀ (s : Store) (qs : QS) (u c : String) (ui ci : Int) (e : AppError),
       first qs "id" = some u → first qs "currency_id" = some c →
       u ≠ "" → c ≠ "" → pyInt u = .ok ui → pyInt c = .ok ci →
       unsubscribe s ui ci = .error e →
       doGet s "/user/unsubscribe" qs =
         (s, htmlResp (render_error e.message) 500, [.unsubscribeE ui ci])) := by
  refine ⟨?_, ?_, ?_, ?_⟩ <;>
    · intro s qs u c ui ci x h1 h2 h3 h4 h5 h6 h7
      simp [doGet, dispatch, subscribeRoute, unsubscribeRoute,
            h1, h2, h3, h4, h5, h6, h7]

/-- Witness for C6 (amended): a concrete successful subscribe request. -/
theorem c6_witness :
    doGet demoStore "/user/subscribe" [("id", ["1"]), ("currency_id", ["1"])] =
      ({ demoStore with subscriptions := [(1, 1)] },
       redirectResp "/user?id=1", [Effect.subscribeE 1 1]) :=
  c6_subscribe_unsubscribe_routes.1 demoStore
    [("id", ["1"]), ("currency_id", ["1"])] "1" "1" 1 1
    { demoStore with subscriptions := [(1, 1)] }
    rfl rfl (by decide) (by decide) rfl rfl rfl

/-! ### C4 -/

/-- C4 counterexample: both parameters present but neither id resolves
(empty store): the `NotFoundError` is surfaced as a 500 response, not a
400- or 404-class one, so the claim's mapping to 400/404 fails. -/
theorem c4_counterexample :
    (doGet emptyStore "/user/subscribe"
        [("id", ["1"]), ("currency_id", ["1"])]).2.1.status = 500 ∧
    ¬(400 ≤ (doGet emptyStore "/user/subscribe"
        [("id", ["1"]), ("currency_id", ["1"])]).2.1.status ∧
      (doGet emptyStore "/user/subscribe"
        [("id", ["1"]), ("currency_id", ["1"])]).2.1.status < 500) :=
  ⟨rfl, by decide⟩

/-- C4 (amended): for `/user/subscribe` or `/user/unsubscribe` with both
parameters present and numeric but at least one id not resolving to an
existing User or Currency row, the resulting `NotFoundError` is surfaced as
a 500 response carrying its message — never a silent success (the store is
returned unchanged and the error page is served) and never an uncontrolled
failure (the handler returns a response). -/
theorem c4_unresolved_id_maps_to_500 :
    (∀ (s : Store) (qs : QS) (u c : String) (ui ci : Int),
       first qs "id" = some u → first qs "currency_id" = some c →
       u ≠ "" → c ≠ "" → pyInt u = .ok ui → pyInt c = .ok ci →
       (userExists s ui = false ∨ currencyExists s ci = false) →
       doGet s "/user/subscribe" qs =
         (s, htmlResp (render_error "user or currency not found") 500,
          [.subscribeE ui ci]))
    ∧ (∀ (s : Store) (qs : QS) (u c : String) (ui ci : Int),
       first qs "id" = some u → first qs "currency_id" = some c →
       u ≠ "" → c ≠ "" → pyInt u = .ok ui → pyInt c = .ok ci →
       (userExists s ui = false ∨ currencyExists s ci = false) →
       doGet s "/user/unsubscribe" qs =
         (s, htmlResp (render_error "user or currency not found") 500,
          [.unsubscribeE ui ci])) := by
  constructor <;>
    · intro s qs u c ui ci h1 h2 h3 h4 h5 h6 h7
      have hcond : ¬(userExists s ui = true ∧ currencyExists s ci = true) := by
        rcases h7 with h7 | h7 <;> simp [h7]
      simp [doGet, dispatch, subscribeRoute, unsubscribeRoute, subscribe,
            unsubscribe, h1, h2, h3, h4, h5, h6, hcond, AppError.message]

/-- Witness for C4 (amended) on the empty store. -/
theorem c4_witness :
    doGet emptyStore "/user/subscribe" [("id", ["1"]), ("currency_id", ["1"])] =
      (emptyStore,
       htmlResp (render_error "user or currency not found") 500,
       [Effect.subscribeE 1 1]) :=
  c4_unresolved_id_maps_to_500.1 emptyStore
    [("id", ["1"]), ("currency_id", ["1"])] "1" "1" 1 1
    rfl rfl (by decide) (by decide) rfl rfl (Or.inl rfl)

/-! ### C3 -/

/-- Updating a currency value never changes the stored character codes. -/
theorem charCodes_update_map (s : Store) (k : String) (v : Rat) :
    charCodes { s with currencies :=
        s.currencies.map (fun c =>
          if c.char_code == k then { c with value := v } else c) } =
      charCodes s := by
  simp only [charCodes, List.map_map]
  refine List.map_congr_left (fun c _ => ?_)
  by_cases h : c.char_code = k <;> simp [h]

/-- `update_currency` succeeds exactly on codes present in the store, and
preserves the stored character codes. -/
theorem update_currency_ok (s : Store) (k : String) (v : Rat)
    (h : k ∈ charCodes s) :
    ∃ s' n, update_currency s k v = .ok (s', n) ∧ charCodes s' = charCodes s := by
  have hany : s.currencies.any (fun c => c.char_code == k) = true := by
    simp only [charCodes, List.mem_map] at h
    obtain ⟨c, hc, hk⟩ := h
    exact List.any_eq_true.mpr ⟨c, hc, by simp [hk]⟩
  refine ⟨_, (s.currencies.filter (fun c => c.char_code == k)).length, ?_,
         charCodes_update_map s k v⟩
  simp [update_currency, hany]

/-- The `update_currency` invocations the `/currency/update` loop performs:
one per query key of exactly 3 alphabetic characters with a non-empty value
list, with the float parse of the first value. -/
def matchingEffects (qs : QS) : List Effect :=
  qs.filterMap (fun p =>
    match p.2 with
    | [] => none
    | v0 :: _ =>
        if p.1.length = 3 && pyIsAlpha p.1 then
          match pyFloat v0 with
          | .ok v => some (.updateE p.1 v)
          | .error _ => none
        else none)

/-- Hypothesis under which every iteration of the update loop succeeds:
each 3-alphabetic key has a parseable first value and names a stored code. -/
def UpdatesResolve (s : Store) (qs : QS) : Prop :=
  ∀ p ∈ qs, ∀ v0 rest, p.2 = v0 :: rest →
    (p.1.length = 3 && pyIsAlpha p.1) = true →
    (∃ v, pyFloat v0 = .ok v) ∧ p.1 ∈ charCodes s

/-- When every matching key resolves, the update loop raises nothing,
performs exactly the matching updates in order, and preserves the stored
character codes. -/
theorem updateLoop_ok : ∀ (qs : QS) (s : Store), UpdatesResolve s qs →
    (updateLoop s qs).2.1 = none ∧
    (updateLoop s qs).2.2 = matchingEffects qs ∧
    charCodes (updateLoop s qs).1 = charCodes s := by
  intro qs
  induction qs with
  | nil => intro s _; simp [updateLoop, matchingEffects]
  | cons p rest ih =>
    intro s h
    obtain ⟨k, vs⟩ := p
    have hrest0 : ∀ q ∈ rest, q ∈ (k, vs) :: rest := fun q hq => List.mem_cons_of_mem _ hq
    match vs with
    | [] =>
      have := ih s (fun q hq => h q (hrest0 q hq))
      simpa [updateLoop, matchingEffects] using this
    | v0 :: vrest =>
      by_cases hk : (k.length = 3 && pyIsAlpha k) = true
      · obtain ⟨⟨v, hv⟩, hmem⟩ :=
          h (k, v0 :: vrest) (List.mem_cons_self _ _) v0 vrest rfl hk
        obtain ⟨s', n, hupd, hcc⟩ := update_currency_ok s k v hmem
        have ihres := ih s' (fun q hq w ws hw hq3 => by
          obtain ⟨hex, hmem'⟩ := h q (hrest0 q hq) w ws hw hq3
          exact ⟨hex, by rw [hcc]; exact hmem'⟩)
        obtain ⟨i1, i2, i3⟩ := ihres
        have hk' : k.length = 3 ∧ pyIsAlpha k = true := by simpa using hk
        refine ⟨?_, ?_, ?_⟩ <;>
          simp [updateLoop, matchingEffects, List.filterMap_cons, hk, hk',
                hv, hupd, i1, i2, i3, hcc]
      · have := ih s (fun q hq => h q (hrest0 q hq))
        obtain ⟨i1, i2, i3⟩ := this
        have hk' : ¬(k.length = 3 ∧ pyIsAlpha k = true) := by simpa using hk
        refine ⟨?_, ?_, ?_⟩ <;>
          simp [updateLoop, matchingEffects, List.filterMap_cons, hk, hk',
                i1, i2, i3]

/-- C3 counterexample: a single 3-alphabetic key whose code is not in the
store makes `update_currency` raise `NotFoundError`, so the response is a
500 error page, not the claimed 302 redirect. -/
theorem c3_counterexample :
    (doGet emptyStore "/currency/update" [("USD", ["91.2"])]).2.1.status = 500 ∧
    (doGet emptyStore "/currency/update" [("USD", ["91.2"])]).2.1 ≠
      redirectResp "/currencies" :=
  ⟨rfl, by decide⟩

/-- C3 (amended): on `/currency/update`, provided every query key of
exactly 3 alphabetic characters has a float-parseable first value and names
a currency code present in the store, the router calls `update_currency`
exactly once per such key (with the float parse of the key's first value,
in query order), keys of any other shape cause no update, and the response
— whether zero or more keys match — is a 302 redirect to `/currencies`. -/
theorem c3_update_route :
    ∀ (s : Store) (qs : QS), UpdatesResolve s qs →
      doGet s "/currency/update" qs =
        ((updateLoop s qs).1, redirectResp "/currencies", matchingEffects qs) := by
  intro s qs h
  obtain ⟨h1, h2, _⟩ := updateLoop_ok qs s h
  simp [doGet, dispatch, h1, h2]

/-- A store holding both an ASCII and a Cyrillic 3-letter currency code. -/
def cyrStore : Store :=
  { currencies := [⟨1, "840", "USD", "US Dollar", 90, 1⟩,
                   ⟨2, "643", "АБВ", "Тестовая валюта", 80, 10⟩],
    users := [⟨1, "alice"⟩], subscriptions := [], nextId := 3 }

/-- Witness for C3 (amended): two matching keys — the ASCII `USD` and the
Cyrillic `АБВ`, both 3-letter alphabetic per Python `isalpha()` — update
their currencies, and the non-alphabetic key `xx` is ignored. -/
theorem c3_witness :
    doGet cyrStore "/currency/update"
        [("USD", ["91.2"]), ("АБВ", ["80.5"]), ("xx", ["5"])] =
      ((updateLoop cyrStore
          [("USD", ["91.2"]), ("АБВ", ["80.5"]), ("xx", ["5"])]).1,
       redirectResp "/currencies",
       matchingEffects [("USD", ["91.2"]), ("АБВ", ["80.5"]), ("xx", ["5"])]) := by
  refine c3_update_route cyrStore _ ?_
  intro p hp v0 rest h2 h3
  simp only [List.mem_cons, List.not_mem_nil, or_false] at hp
  rcases hp with rfl | rfl | rfl
  · cases h2
    exact ⟨⟨_, rfl⟩, by decide⟩
  · cases h2
    exact ⟨⟨_, rfl⟩, by decide⟩
  · exact absurd h3 (by decide)

/-! ### C7 -/

/-- C7: for ids that resolve to existing rows, subscribing twice leaves
exactly one Subscription edge (idempotent insert, given the store invariant
of no duplicate edges), unsubscribing an absent edge is a no-op rather
than an error, and a second consecutive unsubscribe also completes without
error as a no-op. -/
theorem c7_subscription_idempotent :
    ∀ (s : Store) (u c : Int),
      userExists s u = true → currencyExists s c = true →
      countEdge s u c ≤ 1 →
      (∃ s1 s2, subscribe s u c = .ok s1 ∧ subscribe s1 u c = .ok s2 ∧
        countEdge s2 u c = 1)
      ∧ (countEdge s u c = 0 → unsubscribe s u c = .ok s)
      ∧ (∃ t1 t2, unsubscribe s u c = .ok t1 ∧ unsubscribe t1 u c = .ok t2 ∧
        t2 = t1) := by
  intro s u c hu hc hcount
  refine ⟨?_, ?_, ?_⟩
  · by_cases hmem : (u, c) ∈ s.subscriptions
    · have h1 : countEdge s u c = 1 := by
        have : 0 < s.subscriptions.count (u, c) := List.count_pos_iff.mpr hmem
        simp only [countEdge] at hcount ⊢
        omega
      refine ⟨s, s, ?_, ?_, h1⟩ <;> simp [subscribe, hu, hc, hmem]
    · have h0 : countEdge s u c = 0 := by
        simpa [countEdge] using List.count_eq_zero.mpr hmem
      refine ⟨{ s with subscriptions := s.subscriptions ++ [(u, c)] },
              { s with subscriptions := s.subscriptions ++ [(u, c)] },
              ?_, ?_, ?_⟩
      · simp [subscribe, hu, hc, hmem]
      · have hu' : userExists { s with subscriptions := s.subscriptions ++ [(u, c)] } u = true := hu
        have hc' : currencyExists { s with subscriptions := s.subscriptions ++ [(u, c)] } c = true := hc
        simp [subscribe, hu', hc', List.mem_append]
      · simp only [countEdge, List.count_append] at h0 ⊢
        simp [h0, List.count_cons]
  · intro h0
    have hmem : (u, c) ∉ s.subscriptions := by
      intro hm
      have := List.count_pos_iff.mpr hm
      simp only [countEdge] at h0
      omega
    have hf : s.subscriptions.filter (fun p => !(p == (u, c))) = s.subscriptions :=
      List.filter_eq_self.mpr (fun a ha => by
        have : a ≠ (u, c) := fun heq => hmem (heq ▸ ha)
        simp [this])
    simp [unsubscribe, hu, hc, hf]
  · refine ⟨{ s with subscriptions :=
        s.subscriptions.filter (fun p => !(p == (u, c))) },
      { s with subscriptions :=
        s.subscriptions.filter (fun p => !(p == (u, c))) }, ?_, ?_, rfl⟩
    · simp [unsubscribe, hu, hc]
    · have hu' : userExists { s with subscriptions := s.subscriptions.filter (fun p => !(p == (u, c))) } u = true := hu
      have hc' : currencyExists { s with subscriptions := s.subscriptions.filter (fun p => !(p == (u, c))) } c = true := hc
      have hf : (s.subscriptions.filter (fun p => !(p == (u, c)))).filter
          (fun p => !(p == (u, c))) =
          s.subscriptions.filter (fun p => !(p == (u, c))) :=
        List.filter_eq_self.mpr (fun a ha => (List.mem_filter.mp ha).2)
      simp [unsubscribe, hu', hc', hf]

/-- Witness for C7 on the demo store. -/
theorem c7_witness :
    (∃ s1 s2, subscribe demoStore 1 1 = .ok s1 ∧ subscribe s1 1 1 = .ok s2 ∧
      countEdge s2 1 1 = 1)
    ∧ (countEdge demoStore 1 1 = 0 → unsubscribe demoStore 1 1 = .ok demoStore)
    ∧ (∃ t1 t2, unsubscribe demoStore 1 1 = .ok t1 ∧ unsubscribe t1 1 1 = .ok t2 ∧
      t2 = t1) :=
  c7_subscription_idempotent demoStore 1 1 (by decide) (by decide) (by decide)

/-! ### C8 -/

/-- The store as observed after a `create_currency` call: the new store on
success, the unchanged store when the call raised. -/
def storeAfterCreate (s : Store) : Except AppError (Currency × Store) → Store
  | .ok (_, s') => s'
  | .error _ => s

/-- C8: creating a Currency whose `char_code` already exists in the store
fails with `ValidationError`, and the store afterwards equals the store
before the call — no row added or modified. -/
theorem c8_create_duplicate_char_code :
    ∀ (s : Store) (nc x nm : String) (v : Rat) (no : Int),
      (∃ c ∈ s.currencies, c.char_code = x) →
      create_currency s nc x nm v no =
        .error (.validationError ("char_code already exists: " ++ x))
      ∧ storeAfterCreate s (create_currency s nc x nm v no) = s := by
  intro s nc x nm v no hex
  have hany : s.currencies.any (fun c => c.char_code == x) = true := by
    obtain ⟨c, hc, hk⟩ := hex
    exact List.any_eq_true.mpr ⟨c, hc, by simp [hk]⟩
  have herr : create_currency s nc x nm v no =
      .error (.validationError ("char_code already exists: " ++ x)) := by
    simp [create_currency, hany]
  exact ⟨herr, by rw [herr]; rfl⟩

/-- Witness for C8: duplicate `USD` on the demo store. -/
theorem c8_witness :
    create_currency demoStore "840" "USD" "Dollar again" 91 1 =
      .error (.validationError ("char_code already exists: " ++ "USD"))
    ∧ storeAfterCreate demoStore
        (create_currency demoStore "840" "USD" "Dollar again" 91 1) = demoStore :=
  c8_create_duplicate_char_code demoStore "840" "USD" "Dollar again" 91 1
    ⟨⟨1, "840", "USD", "US Dollar", 90, 1⟩, by decide, rfl⟩

/-! ### C9 -/

/-- C9: `delete_currency` is idempotent — it never raises (it is a total
function), after the first call the id is absent from `list_currencies()`,
a second consecutive call is a no-op returning `false`, and calling it with
an id absent from the store leaves the store unchanged rather than
erroring. -/
theorem c9_delete_idempotent :
    ∀ (s : Store) (cid : Int),
      (∀ c ∈ list_currencies (delete_currency s cid).1, c.id ≠ cid)
      ∧ delete_currency (delete_currency s cid).1 cid =
          ((delete_currency s cid).1, false)
      ∧ ((∀ c ∈ s.currencies, c.id ≠ cid) → (delete_currency s cid).1 = s) := by
  intro s cid
  refine ⟨?_, ?_, ?_⟩
  · intro c hc
    have := (List.mem_filter.mp hc).2
    simpa using this
  · have hf : (s.currencies.filter (fun c => !(c.id == cid))).filter
        (fun c => !(c.id == cid)) =
        s.currencies.filter (fun c => !(c.id == cid)) :=
      List.filter_eq_self.mpr (fun a ha => (List.mem_filter.mp ha).2)
    have hany : (s.currencies.filter (fun c => !(c.id == cid))).any
        (fun c => c.id == cid) = false := by
      rw [List.any_eq_false]
      intro c hc
      have := (List.mem_filter.mp hc).2
      simpa using this
    simp [delete_currency, hf, hany]
  · intro habs
    have hf : s.currencies.filter (fun c => !(c.id == cid)) = s.currencies :=
      List.filter_eq_self.mpr (fun a ha => by simp [habs a ha])
    simp [delete_currency, hf]

/-- Witness for C9: deleting the absent id 5 from the demo store. -/
theorem c9_witness :
    (∀ c ∈ list_currencies (delete_currency demoStore 5).1, c.id ≠ 5)
    ∧ delete_currency (delete_currency demoStore 5).1 5 =
        ((delete_currency demoStore 5).1, false)
    ∧ (delete_currency demoStore 5).1 = demoStore :=
  ⟨(c9_delete_idempotent demoStore 5).1,
   (c9_delete_idempotent demoStore 5).2.1,
   (c9_delete_idempotent demoStore 5).2.2 (by decide)⟩

/-! ### lab6: binary-tree builders (`src/lab6.py`) -/

/-- A lab6 tree node: the nested dict `{"value": v, "left": t?, "right": t?}`
with `None` children modelled as `none`. -/
inductive PyTree where
  | node (value : Int) (left : Option PyTree) (right : Option PyTree)
deriving Repr

/-- `child_values`: left child `v + v // 2` (Python floor division) and
right child `v ** 2`. -/
def child_values (value : Int) : Int × Int :=
  (value + Int.fdiv value 2, value ^ 2)

/-- The inner `_build(value, level)` of `build_tree_recursive`: a leaf when
`level >= height`, otherwise children from `child_values` one level down. -/
def buildAux (height : Nat) (value : Int) (level : Nat) : PyTree :=
  if height ≤ level then .node value none none
  else
    .node value (some (buildAux height (child_values value).1 (level + 1)))
                (some (buildAux height (child_values value).2 (level + 1)))
termination_by height - level
decreasing_by all_goals omega

/-- `build_tree_recursive(data)`: `ValueError` when `height < 1`, else the
recursive build started at the root with level 1. -/
def build_tree_recursive (data : Int × Int) : Except AppError PyTree :=
  if data.2 < 1 then .error (.valueError "height must be >= 1")
  else .ok (buildAux data.2.toNat data.1 1)

/-- Gas-indexed form of the recursive build: `buildRec v g` is the full
tree of `g` further levels below a node holding `v`. -/
def buildRec (v : Int) : Nat → PyTree
  | 0 => .node v none none
  | g + 1 =>
      .node v (some (buildRec (child_values v).1 g))
              (some (buildRec (child_values v).2 g))

/-- The recursive build equals its gas-indexed form at gas `height - level`. -/
theorem buildAux_eq : ∀ (g height level : Nat) (v : Int),
    height - level = g → buildAux height v level = buildRec v g := by
  intro g
  induction g with
  | zero =>
    intro height level v hg
    have hle : height ≤ level := by omega
    rw [buildAux]
    simp [hle, buildRec]
  | succ n ih =>
    intro height level v hg
    have hle : ¬height ≤ level := by omega
    rw [buildAux]
    simp only [hle, if_false, buildRec]
    rw [ih height (level + 1) (child_values v).1 (by omega),
        ih height (level + 1) (child_values v).2 (by omega)]

/-- A mutable dict node of the iterative builder: its `"value"` and the
ids of the child dicts (`None` while a leaf). -/
structure NodeRec where
  value : Int
  left : Option Nat
  right : Option Nat
deriving DecidableEq, Repr

/-- The object heap: Python dict identities are modelled as `Nat` ids. -/
def Heap := Nat → Option NodeRec

/-- In-place mutation / allocation of the node with id `i`. -/
def hset (h : Heap) (i : Nat) (r : NodeRec) : Heap :=
  fun j => if j = i then some r else h j

theorem hset_same (h : Heap) (i : Nat) (r : NodeRec) : hset h i r i = some r := by
  simp [hset]

theorem hset_other (h : Heap) (i : Nat) (r : NodeRec) (j : Nat) (hj : j ≠ i) :
    hset h i r j = h j := by
  simp [hset, hj]

/-- Termination measure for the stack loop: each pending entry at `level`
accounts for the node count of the full subtree still to be built under it. -/
def stackWeight (height : Nat) (stack : List (Nat × Nat)) : Nat :=
  (stack.map (fun p => 2 ^ (height - p.2 + 1) - 1)).sum

/-- The `while stack:` loop of `build_tree_iterative`: pop `(node, level)`;
below the last level, allocate the two child leaves from `child_values`,
link them into the popped node (`node["left"] = ...`), and push right then
left (so left is on top), ids `next` and `next + 1`. -/
def runLoop (height : Nat) (h : Heap) (stack : List (Nat × Nat)) (next : Nat) :
    Heap :=
  match stack with
  | [] => h
  | (id, level) :: rest =>
      if _hle : height ≤ level then runLoop height h rest next
      else
        match h id with
        | none => runLoop height h rest next
        | some r =>
            let cv := child_values r.value
            let h1 := hset h next ⟨cv.1, none, none⟩
            let h2 := hset h1 (next + 1) ⟨cv.2, none, none⟩
            let h3 := hset h2 id ⟨r.value, some next, some (next + 1)⟩
            runLoop height h3 ((next, level + 1) :: (next + 1, level + 1) :: rest)
              (next + 2)
termination_by stackWeight height stack
decreasing_by
  all_goals simp only [stackWeight, List.map_cons, List.sum_cons]
  · have h1 : 1 ≤ 2 ^ (height - level + 1) := Nat.one_le_pow _ 2 (by norm_num)
    omega
  · have h1 : 1 ≤ 2 ^ (height - level + 1) := Nat.one_le_pow _ 2 (by norm_num)
    omega
  · have e : height - (level + 1) + 1 = height - level := by omega
    rw [e]
    have h1 : 1 ≤ 2 ^ (height - level) := Nat.one_le_pow _ 2 (by norm_num)
    omega

/-- Reading the nested-dict tree back out of the heap, starting at a node
id, with a fuel bound on the depth. -/
def readTree (h : Heap) : Nat → Nat → Option PyTree
  | 0, _ => none
  | f + 1, id =>
      match h id with
      | none => none
      | some r =>
          match r.left, r.right with
          | none, none => some (.node r.value none none)
          | some li, some ri =>
              match readTree h f li, readTree h f ri with
              | some lt, some rt => some (.node r.value (some lt) (some rt))
              | _, _ => none
          | _, _ => none

/-- `build_tree_iterative(data)`: `ValueError` when `height < 1`, else run
the stack loop from a root leaf dict (id 0) at level 1 and read the nested
dict back (the readback always succeeds; the fallback error is unreachable,
as the equivalence theorem shows). -/
def build_tree_iterative (data : Int × Int) : Except AppError PyTree :=
  if data.2 < 1 then .error (.valueError "height must be >= 1")
  else
    let hN := data.2.toNat
    let h0 : Heap := fun j => if j = 0 then some ⟨data.1, none, none⟩ else none
    match readTree (runLoop hN h0 [(0, 1)] 1) hN 0 with
    | some t => .ok t
    | none => .error (.valueError "height must be >= 1")

/-- Invariant-based correctness of the stack loop: already-allocated ids
outside the pending stack are untouched, and after the loop every pending
leaf reads back as the full recursive subtree below its level. -/
theorem runLoop_spec :
    ∀ (w height : Nat) (stack : List (Nat × Nat)) (h : Heap) (next : Nat),
      stackWeight height stack ≤ w →
      (∀ p ∈ stack, ∃ v, h p.1 = some ⟨v, none, none⟩) →
      (stack.map Prod.fst).Nodup →
      (∀ i, next ≤ i → h i = none) →
      (∀ p ∈ stack, p.1 < next) →
      (∀ j, j < next → (∀ p ∈ stack, j ≠ p.1) →
        runLoop height h stack next j = h j)
      ∧ (∀ p ∈ stack, ∀ v, h p.1 = some ⟨v, none, none⟩ →
        ∀ f, height - p.2 + 1 ≤ f →
        readTree (runLoop height h stack next) f p.1 =
          some (buildRec v (height - p.2))) := by
  intro w
  induction w with
  | zero =>
    intro height stack h next hw hA hN hC hLt
    rcases stack with _ | ⟨⟨id, l⟩, rest⟩
    · exact ⟨fun j _ _ => by rw [runLoop], fun p hp => absurd hp (List.not_mem_nil p)⟩
    · exfalso
      have h2 : 2 ≤ 2 ^ (height - l + 1) := by
        calc (2 : Nat) = 2 ^ 1 := rfl
        _ ≤ 2 ^ (height - l + 1) := Nat.pow_le_pow_right (by norm_num) (by omega)
      simp only [stackWeight, List.map_cons, List.sum_cons] at hw
      omega
  | succ n ih =>
    intro height stack h next hw hA hN hC hLt
    rcases stack with _ | ⟨⟨id, l⟩, rest⟩
    · exact ⟨fun j _ _ => by rw [runLoop], fun p hp => absurd hp (List.not_mem_nil p)⟩
    have hid_lt : id < next := hLt (id, l) (List.mem_cons_self _ _)
    have hid_notin_rest : ∀ p ∈ rest, id ≠ p.1 := by
      simp only [List.map_cons, List.nodup_cons] at hN
      intro p hp heq
      exact hN.1 (heq ▸ List.mem_map_of_mem Prod.fst hp)
    have hN' : (rest.map Prod.fst).Nodup := by
      simp only [List.map_cons, List.nodup_cons] at hN
      exact hN.2
    have hA' : ∀ p ∈ rest, ∃ v, h p.1 = some ⟨v, none, none⟩ :=
      fun p hp => hA p (List.mem_cons_of_mem _ hp)
    have hLt' : ∀ p ∈ rest, p.1 < next :=
      fun p hp => hLt p (List.mem_cons_of_mem _ hp)
    obtain ⟨v0, hv0⟩ := hA (id, l) (List.mem_cons_self _ _)
    have hpow2 : 2 ≤ 2 ^ (height - l + 1) := by
      calc (2 : Nat) = 2 ^ 1 := rfl
      _ ≤ 2 ^ (height - l + 1) := Nat.pow_le_pow_right (by norm_num) (by omega)
    by_cases hle : height ≤ l
    · have hrun : runLoop height h ((id, l) :: rest) next =
          runLoop height h rest next := by
        rw [runLoop]
        simp [hle]
      have hw' : stackWeight height rest ≤ n := by
        simp only [stackWeight, List.map_cons, List.sum_cons] at hw ⊢
        omega
      obtain ⟨G1, G2⟩ := ih height rest h next hw' hA' hN' hC hLt'
      constructor
      · intro j hj hnot
        rw [hrun]
        exact G1 j hj (fun p hp => hnot p (List.mem_cons_of_mem _ hp))
      · intro p hp v hv f hf
        rcases List.mem_cons.mp hp with heq | hp'
        · subst heq
          have hv' : h id = some ⟨v, none, none⟩ := hv
          have h0 : height - l = 0 := by omega
          have hid : runLoop height h rest next id = h id :=
            G1 id hid_lt hid_notin_rest
          obtain ⟨m, rfl⟩ : ∃ m, f = m + 1 := ⟨f - 1, by omega⟩
          rw [hrun]
          simp only [readTree, hid, hv', h0, buildRec]
        · rw [hrun]
          exact G2 p hp' v hv f hf
    · have hne1 : next ≠ id := by omega
      have hne2 : next ≠ next + 1 := by omega
      have hne3 : next + 1 ≠ id := by omega
      set h3 : Heap :=
        hset (hset (hset h next ⟨(child_values v0).1, none, none⟩)
            (next + 1) ⟨(child_values v0).2, none, none⟩)
          id ⟨v0, some next, some (next + 1)⟩ with hh3
      have hrun : runLoop height h ((id, l) :: rest) next =
          runLoop height h3 ((next, l + 1) :: (next + 1, l + 1) :: rest)
            (next + 2) := by
        rw [runLoop]
        simp [hle, hv0, hh3]
      have h3a : h3 next = some ⟨(child_values v0).1, none, none⟩ := by
        simp [hh3, hset, hne1, hne2]
      have h3b : h3 (next + 1) = some ⟨(child_values v0).2, none, none⟩ := by
        simp [hh3, hset, hne3]
      have h3id : h3 id = some ⟨v0, some next, some (next + 1)⟩ := by
        simp [hh3, hset]
      have h3other : ∀ j, j ≠ id → j ≠ next → j ≠ next + 1 → h3 j = h j := by
        intro j hj1 hj2 hj3
        simp [hh3, hset, hj1, hj2, hj3]
      have hA2 : ∀ p ∈ (next, l + 1) :: (next + 1, l + 1) :: rest,
          ∃ v, h3 p.1 = some ⟨v, none, none⟩ := by
        intro p hp
        rcases List.mem_cons.mp hp with rfl | hp
        · exact ⟨_, h3a⟩
        rcases List.mem_cons.mp hp with rfl | hp
        · exact ⟨_, h3b⟩
        · obtain ⟨v, hv⟩ := hA' p hp
          have hplt := hLt' p hp
          refine ⟨v, ?_⟩
          rw [h3other p.1 (fun he => hid_notin_rest p hp he.symm)
                (by omega) (by omega)]
          exact hv
      have hfrest : ∀ x ∈ rest.map Prod.fst, x < next := by
        intro x hx
        obtain ⟨p, hp, rfl⟩ := List.mem_map.mp hx
        exact hLt' p hp
      have hN2 : (((next, l + 1) :: (next + 1, l + 1) :: rest).map
          Prod.fst).Nodup := by
        simp only [List.map_cons, List.nodup_cons, List.mem_cons]
        refine ⟨?_, ?_, hN'⟩
        · rintro (heq | hmem)
          · omega
          · exact absurd (hfrest _ hmem) (by omega)
        · intro hmem
          exact absurd (hfrest _ hmem) (by omega)
      have hC2 : ∀ i, next + 2 ≤ i → h3 i = none := by
        intro i hi
        rw [h3other i (by omega) (by omega) (by omega)]
        exact hC i (by omega)
      have hLt2 : ∀ p ∈ (next, l + 1) :: (next + 1, l + 1) :: rest,
          p.1 < next + 2 := by
        intro p hp
        rcases List.mem_cons.mp hp with rfl | hp
        · show next < next + 2
          omega
        rcases List.mem_cons.mp hp with rfl | hp
        · show next + 1 < next + 2
          omega
        · have := hLt' p hp
          omega
      have hw2 : stackWeight height
          ((next, l + 1) :: (next + 1, l + 1) :: rest) ≤ n := by
        simp only [stackWeight, List.map_cons, List.sum_cons] at hw ⊢
        have e : height - (l + 1) + 1 = height - l := by omega
        rw [e]
        have hp2 : 2 ^ (height - l + 1) = 2 ^ (height - l) * 2 :=
          Nat.pow_succ 2 (height - l)
        have h1 : 1 ≤ 2 ^ (height - l) := Nat.one_le_pow _ 2 (by norm_num)
        omega
      obtain ⟨G1, G2⟩ := ih height ((next, l + 1) :: (next + 1, l + 1) :: rest)
        h3 (next + 2) hw2 hA2 hN2 hC2 hLt2
      have hidnot : ∀ p ∈ (next, l + 1) :: (next + 1, l + 1) :: rest,
          id ≠ p.1 := by
        intro p hp
        rcases List.mem_cons.mp hp with rfl | hp
        · show id ≠ next
          omega
        rcases List.mem_cons.mp hp with rfl | hp
        · show id ≠ next + 1
          omega
        · exact hid_notin_rest p hp
      constructor
      · intro j hj hnot
        have hj1 : j ≠ id := hnot (id, l) (List.mem_cons_self _ _)
        have hnot2 : ∀ p ∈ (next, l + 1) :: (next + 1, l + 1) :: rest,
            j ≠ p.1 := by
          intro p hp
          rcases List.mem_cons.mp hp with rfl | hp
          · show j ≠ next
            omega
          rcases List.mem_cons.mp hp with rfl | hp
          · show j ≠ next + 1
            omega
          · exact hnot p (List.mem_cons_of_mem _ hp)
        rw [hrun, G1 j (by omega) hnot2,
            h3other j hj1 (by omega) (by omega)]
      · intro p hp v hv f hf
        rcases List.mem_cons.mp hp with heq | hp'
        · subst heq
          have hv' : h id = some ⟨v, none, none⟩ := hv
          have hvv : v = v0 := by
            have h1 := hv'.symm.trans hv0
            simp at h1
            exact h1
          rw [hvv]
          have hf' : height - l + 1 ≤ f := hf
          have hgap : 1 ≤ height - l := by omega
          obtain ⟨g, hg⟩ : ∃ g, height - l = g + 1 := ⟨height - l - 1, by omega⟩
          have hg' : height - (l + 1) = g := by omega
          obtain ⟨m, rfl⟩ : ∃ m, f = m + 1 := ⟨f - 1, by omega⟩
          have hm : height - (l + 1) + 1 ≤ m := by omega
          have hid3 : runLoop height h3
              ((next, l + 1) :: (next + 1, l + 1) :: rest) (next + 2) id =
              h3 id := G1 id (by omega) hidnot
          have hreadL := G2 (next, l + 1) (List.mem_cons_self _ _)
            (child_values v0).1 h3a m hm
          have hreadR := G2 (next + 1, l + 1)
            (List.mem_cons_of_mem _ (List.mem_cons_self _ _))
            (child_values v0).2 h3b m hm
          rw [hg'] at hreadL hreadR
          show readTree (runLoop height h ((id, l) :: rest) next) (m + 1) id =
            some (buildRec v0 (height - l))
          rw [hrun]
          simp only [readTree, hid3, h3id, hreadL, hreadR, hg, buildRec]
        · have hplt := hLt' p hp'
          have hp3 : h3 p.1 = some ⟨v, none, none⟩ := by
            rw [h3other p.1 (fun he => hid_notin_rest p hp' he.symm)
                  (by omega) (by omega)]
            exact hv
          rw [hrun]
          exact G2 p (List.mem_cons_of_mem _ (List.mem_cons_of_mem _ hp'))
            v hp3 f hf

/-! ### C10 -/

/-- C10: for every integer root and height at least 1, the iterative
builder (explicit stack over mutable dict nodes) returns a nested tree
structurally equal to the recursive builder's: same shape, same value at
every node, children `v + v // 2` and `v ** 2`. -/
theorem c10_iterative_eq_recursive :
    ∀ (root height : Int), 1 ≤ height →
      build_tree_iterative (root, height) = build_tree_recursive (root, height) := by
  intro root height h1
  have hneg : ¬(height < 1) := by omega
  have hN1 : 1 ≤ height.toNat := by omega
  obtain ⟨G1, G2⟩ := runLoop_spec (stackWeight height.toNat [(0, 1)])
      height.toNat [(0, 1)]
      (fun j => if j = 0 then some ⟨root, none, none⟩ else none) 1
      le_rfl
      (by intro p hp
          simp only [List.mem_singleton] at hp
          subst hp
          exact ⟨root, by simp⟩)
      (by simp)
      (by intro i hi
          simp [show ¬(i = 0) by omega])
      (by intro p hp
          simp only [List.mem_singleton] at hp
          subst hp
          show 0 < 1
          omega)
  have hread : readTree
      (runLoop height.toNat
        (fun j => if j = 0 then some ⟨root, none, none⟩ else none) [(0, 1)] 1)
      height.toNat 0 = some (buildRec root (height.toNat - 1)) :=
    G2 (0, 1) (List.mem_cons_self _ _) root (by simp) height.toNat (by omega)
  simp only [build_tree_iterative, build_tree_recursive, hneg, if_false]
  rw [hread]
  simp only [buildAux_eq (height.toNat - 1) height.toNat 1 root (by omega)]

/-- Witness for C10 at the source's own sample root 8 and height 3. -/
theorem c10_witness :
    1 ≤ (3 : Int) ∧ build_tree_iterative (8, 3) = build_tree_recursive (8, 3) :=
  ⟨by norm_num, c10_iterative_eq_recursive 8 3 (by norm_num)⟩
